import Mathlib

/-!
Verification of the helper logic of a Playwright-based end-to-end test suite
(Page Object Model for a real-estate listing site).  The JavaScript sources are
shallowly embedded: pure string/array logic becomes Lean functions, file-system
and browser effects become outcome-typed inputs (an Except value per primitive
operation), and each stateful page object becomes a structure with explicit
state-passing operations.
-/

namespace Sollit

/-- JS-like runtime values, as far as the suite manipulates them: the result of
JSON.parse together with the undefined value produced by missing members. -/
inductive JsVal where
  | undef : JsVal
  | null : JsVal
  | bool (b : Bool) : JsVal
  | num (n : Int) : JsVal
  | str (s : String) : JsVal
  | arr (elems : List JsVal) : JsVal
  | obj (fields : List (String × JsVal)) : JsVal

/-- JS truthiness of a value (empty string and zero are falsy; every array and
object is truthy). -/
def truthy : JsVal → Bool
  | JsVal.undef => false
  | JsVal.null => false
  | JsVal.bool b => b
  | JsVal.num n => n != 0
  | JsVal.str s => s != ""
  | JsVal.arr _ => true
  | JsVal.obj _ => true

/-- Member access v[k] on a value known not to be null or undefined: an object
yields the stored field or undefined, every other value yields undefined. -/
def getField : JsVal → String → JsVal
  | JsVal.obj fields, k => ((fields.lookup k).getD JsVal.undef)
  | _, _ => JsVal.undef

/-- Member access v[k] in full: on null or undefined it raises a TypeError,
otherwise it behaves like getField. -/
def getMember (v : JsVal) (k : String) : Except String JsVal :=
  match v with
  | JsVal.undef => Except.error "TypeError"
  | JsVal.null => Except.error "TypeError"
  | _ => Except.ok (getField v k)

/-- The value of the JS expression v.length: the element count for an array,
the character count for a string, undefined otherwise. -/
def jsLength : JsVal → JsVal
  | JsVal.arr elems => JsVal.num elems.length
  | JsVal.str s => JsVal.num s.length
  | _ => JsVal.undef

/-- The JS comparison v > 0: true only for a positive number (comparison with
undefined is false, as NaN comparisons are). -/
def jsGtZero : JsVal → Bool
  | JsVal.num n => 0 < n
  | _ => false

/-- Does the char list hay start with the char list needle? -/
def charsHasPre : List Char → List Char → Bool
  | [], _ => true
  | _ :: _, [] => false
  | a :: as, b :: bs => a = b && charsHasPre as bs

/-- Does the char list hay contain the char list needle contiguously?  This is
the search underlying the JS method String.prototype.includes. -/
def charsHasSub (needle : List Char) : List Char → Bool
  | [] => charsHasPre needle []
  | b :: t => charsHasPre needle (b :: t) || charsHasSub needle t

/-- The JS expression s.includes(sub): case-sensitive literal substring test,
no globbing, no normalisation. -/
def jsIncludes (s sub : String) : Bool :=
  charsHasSub sub.data s.data

theorem charsHasPre_iff (n h : List Char) :
    charsHasPre n h = true ↔ ∃ t, h = n ++ t := by
  induction n generalizing h with
  | nil => simp [charsHasPre]
  | cons a as ih =>
    cases h with
    | nil =>
      simp [charsHasPre]
    | cons b bs =>
      simp only [charsHasPre, Bool.and_eq_true, decide_eq_true_eq, ih]
      constructor
      · rintro ⟨rfl, t, rfl⟩
        exact ⟨t, rfl⟩
      · rintro ⟨t, ht⟩
        cases ht
        exact ⟨rfl, t, rfl⟩

theorem charsHasSub_iff (n h : List Char) :
    charsHasSub n h = true ↔ ∃ p t, h = p ++ n ++ t := by
  induction h with
  | nil =>
    simp only [charsHasSub, charsHasPre_iff]
    constructor
    · rintro ⟨t, ht⟩
      exact ⟨[], t, by simpa using ht⟩
    · rintro ⟨p, t, ht⟩
      refine ⟨t, ?_⟩
      have hp : p = [] := by
        cases p with
        | nil => rfl
        | cons x xs => simp at ht
      subst hp
      simpa using ht
  | cons b bs ih =>
    simp only [charsHasSub, Bool.or_eq_true, charsHasPre_iff, ih]
    constructor
    · rintro (⟨t, ht⟩ | ⟨p, t, ht⟩)
      · exact ⟨[], t, by simpa using ht⟩
      · exact ⟨b :: p, t, by simp [ht]⟩
    · rintro ⟨p, t, ht⟩
      cases p with
      | nil =>
        exact Or.inl ⟨t, by simpa using ht⟩
      | cons x xs =>
        simp only [List.cons_append, List.cons.injEq] at ht
        exact Or.inr ⟨xs, t, by simp [ht.2]⟩

/-- Outcome of reading and parsing the state file: none models a missing or
unreadable file (fs.access or fs.readFile throws), some none models unreadable
JSON (JSON.parse throws), some (some v) models content that parses to v. -/
abbrev FileOutcome := Option (Option JsVal)

/-- Embedding of isStateFileValid from src/utils/helpers.js: any file-system or
parse error is caught and yields false; otherwise the function returns the JS
value of the expression state && state.cookies && state.cookies.length > 0,
with the two && operators short-circuiting on a falsy operand. -/
def isStateFileValid (file : FileOutcome) : JsVal :=
  match file with
  | none => JsVal.bool false
  | some none => JsVal.bool false
  | some (some state) =>
    if truthy state = false then state
    else
      let c := getField state "cookies"
      if truthy c = false then c
      else JsVal.bool (jsGtZero (jsLength c))

/-- A route handler installed on the Playwright page by NetworkMockPage:
either the catch-all monitoring observer or a pattern-scoped mock. -/
inductive RouteKind where
  | catchAll : RouteKind
  | pattern (pat : String) : RouteKind
  deriving DecidableEq, BEq

/-- State of a NetworkMockPage instance from src/pages/NetworkMockPage.js:
the two tracking arrays, the monitoring flag, and the route handlers installed
on the underlying page. -/
structure NetworkMockPage where
  interceptedRequests : List String
  interceptedUrls : List String
  isMonitoringRequests : Bool
  routes : List RouteKind

/-- The fresh state built by the NetworkMockPage constructor. -/
def NetworkMockPage.init : NetworkMockPage :=
  { interceptedRequests := [], interceptedUrls := [],
    isMonitoringRequests := false, routes := [] }

/-- The body of the catch-all route handler installed by
startRequestMonitoring, fired once per outgoing request: it pushes the request
URL onto interceptedUrls and continues the request. -/
def monitorHandler (s : NetworkMockPage) (url : String) : NetworkMockPage :=
  { s with interceptedUrls := s.interceptedUrls ++ [url] }

/-- Embedding of startRequestMonitoring: an early return when the monitoring
flag is already set; otherwise it installs the catch-all route and sets the
flag. -/
def startRequestMonitoring (s : NetworkMockPage) : NetworkMockPage :=
  if s.isMonitoringRequests then s
  else
    { s with routes := s.routes ++ [RouteKind.catchAll],
             isMonitoringRequests := true }

/-- Embedding of setupMockResponse: it first calls startRequestMonitoring,
then installs the pattern-scoped route handler. -/
def setupMockResponse (s : NetworkMockPage) (pat : String) : NetworkMockPage :=
  let s1 := startRequestMonitoring s
  { s1 with routes := s1.routes ++ [RouteKind.pattern pat] }

/-- The body of a pattern-scoped mock route handler, fired on a matching
request: it pushes the request onto interceptedRequests and fulfills the
request with the canned body; interceptedUrls is untouched. -/
def mockHandler (s : NetworkMockPage) (url : String) : NetworkMockPage :=
  { s with interceptedRequests := s.interceptedRequests ++ [url] }

/-- Embedding of wasUrlPatternIntercepted: filter the recorded URLs by the JS
substring test url.includes(pattern) and compare the match count with zero. -/
def wasUrlPatternIntercepted (s : NetworkMockPage) (pat : String) : Bool :=
  0 < (s.interceptedUrls.filter (fun url => jsIncludes url pat)).length

/-- The state-changing entry points of the network-mock harness, as events:
a catch-all observation of a request URL, a call to startRequestMonitoring,
a call to setupMockResponse, and a firing of a pattern-scoped mock handler. -/
inductive NMOp where
  | monitor (url : String) : NMOp
  | startMon : NMOp
  | setupMock (pat : String) : NMOp
  | mockFire (url : String) : NMOp

/-- Apply one harness event to the page state. -/
def applyOp (s : NetworkMockPage) : NMOp → NetworkMockPage
  | NMOp.monitor url => monitorHandler s url
  | NMOp.startMon => startRequestMonitoring s
  | NMOp.setupMock pat => setupMockResponse s pat
  | NMOp.mockFire url => mockHandler s url

/-- Run a sequence of harness events from a state. -/
def runOps (s : NetworkMockPage) : List NMOp → NetworkMockPage
  | [] => s
  | op :: ops => runOps (applyOp s op) ops

/-- The URLs observed by the catch-all handler within an event sequence, in
arrival order. -/
def monitoredUrls (ops : List NMOp) : List String :=
  ops.filterMap (fun op =>
    match op with
    | NMOp.monitor url => some url
    | _ => none)

/-- Embedding of loadTestData from src/utils/helpers.js: a read or parse
failure is caught and yields the empty object. -/
def loadTestData (file : FileOutcome) : JsVal :=
  match file with
  | some (some v) => v
  | _ => JsVal.obj []

/-- Embedding of getTestData from src/utils/commands.js: load the fixture
file, then throw a not-found error naming the key when the member access
data[dataType] yields a falsy value. -/
def getTestData (file : FileOutcome) (dataType : String) : Except String JsVal :=
  let data := loadTestData file
  match getMember data dataType with
  | Except.error e => Except.error e
  | Except.ok v =>
    if truthy v = false then
      Except.error ("Test data for type \"" ++ dataType ++ "\" not found in data file")
    else Except.ok v

/-- Embedding of getCredentials from src/utils/commands.js: load the
credentials file, then throw a not-found error naming the user-type key when
data.users is falsy or data.users[userType] is falsy (the JS disjunction
short-circuits, so the second member access only happens on a truthy
data.users). -/
def getCredentials (file : FileOutcome) (userType : String) : Except String JsVal :=
  let data := loadTestData file
  match getMember data "users" with
  | Except.error e => Except.error e
  | Except.ok users =>
    if truthy users = false then
      Except.error ("Credentials for user type \"" ++ userType ++ "\" not found in credentials file")
    else
      match getMember users userType with
      | Except.error e => Except.error e
      | Except.ok u =>
        if truthy u = false then
          Except.error ("Credentials for user type \"" ++ userType ++ "\" not found in credentials file")
        else Except.ok u

/-- Outcome of one browser primitive inside isLoggedIn: ok b is a completed
visibility lookup, error is a raised internal error. -/
abbrev LookupOutcome := Except Unit Bool

/-- The environment isLoggedIn runs against: one outcome per primitive
operation of src/pages/BasePage.js lines 92-179, in source order. -/
structure LoginEnv where
  url : Except Unit String
  initialWait : Except Unit Unit
  accountText : LookupOutcome
  menuVisible : LookupOutcome
  menuClick : Except Unit Unit
  menuWait : Except Unit Unit
  logoutVisible : LookupOutcome
  userNameVisible : LookupOutcome
  passwordVisible : LookupOutcome
  loginBtnVisible : LookupOutcome

/-- The visibility lookups of isLoggedIn are written
isVisible(...).catch(() => false): a raised error is swallowed on the spot and
read as not visible. -/
def lookupSwallow (r : LookupOutcome) : Bool :=
  match r with
  | Except.ok b => b
  | Except.error _ => false

/-- Does the environment make at least one of the internal element lookups of
isLoggedIn raise an error? -/
def someLookupErr (env : LoginEnv) : Prop :=
  env.accountText = Except.error () ∨ env.menuVisible = Except.error () ∨
    env.logoutVisible = Except.error () ∨ env.userNameVisible = Except.error () ∨
    env.passwordVisible = Except.error () ∨ env.loginBtnVisible = Except.error ()

/-- The body of isLoggedIn (src/pages/BasePage.js lines 92-179) without its
outermost try/catch, in source order: log the URL (a url() failure escapes),
wait, read the URL and test its patterns, try the Account text indicator, try
the account menu and its logout link (click and wait failures are caught by
the step-local catch and fall through), then the three not-logged-in
indicators, defaulting to false. -/
def isLoggedInBody (env : LoginEnv) : Except Unit Bool :=
  match env.url with
  | Except.error e => Except.error e
  | Except.ok _ =>
    match env.initialWait with
    | Except.error e => Except.error e
    | Except.ok _ =>
      match env.url with
      | Except.error e => Except.error e
      | Except.ok url =>
        if jsIncludes url "www.funda.nl" ||
            (!jsIncludes url "login.funda.nl" && jsIncludes url "funda.nl") then
          Except.ok true
        else if lookupSwallow env.accountText then
          Except.ok true
        else
          let menuFoundLogout : Bool :=
            if lookupSwallow env.menuVisible then
              match env.menuClick with
              | Except.error _ => false
              | Except.ok _ =>
                match env.menuWait with
                | Except.error _ => false
                | Except.ok _ => lookupSwallow env.logoutVisible
            else false
          if menuFoundLogout then Except.ok true
          else if lookupSwallow env.userNameVisible then Except.ok false
          else if lookupSwallow env.passwordVisible then Except.ok false
          else if lookupSwallow env.loginBtnVisible then Except.ok false
          else Except.ok false

/-- Embedding of isLoggedIn: the body wrapped in the outermost try/catch,
which converts any escaping error into the return value false. -/
def isLoggedIn (env : LoginEnv) : Except Unit Bool :=
  match isLoggedInBody env with
  | Except.error _ => Except.ok false
  | Except.ok b => Except.ok b

/-- Observable actions handlePossibleCaptcha performs, used to decide whether
a run entered a waiting or polling phase: reload, a fixed waitForTimeout, one
tick of the interactive 3-second polling loop, the Promise.race wait of the
image-selection branch, and a re-navigation. -/
inductive Step where
  | reload : Step
  | waitMs (ms : Nat) : Step
  | poll : Step
  | raceWait : Step
  | navigate (path : String) : Step
  deriving DecidableEq

/-- Result of a handlePossibleCaptcha run: the steps performed, and the
message of the error it raised, if it raised one. -/
structure HandlerResult where
  steps : List Step
  err : Option String
  deriving DecidableEq

/-- The environment handlePossibleCaptcha runs against: the HEADLESS
environment variable, the visibility of the three markers, whether the
checkbox-style challenge reads as cleared at a given elapsed time (the
per-tick disjunction of not-on-captcha-page and login-form-visible), whether
the image-selection wait resolves within its 2-minute race, and the current
URL read afterwards. -/
structure CaptchaEnv where
  headlessVar : Option String
  accessDeniedVisible : Bool
  captchaPageVisible : Bool
  cleared : Nat → Bool
  imageSelectVisible : Bool
  imageCleared : Bool
  currentUrl : String

/-- The non-interactive test of src/pages/BasePage.js line 229:
process.env.HEADLESS !== the string false and !== the string 0; an unset
variable therefore counts as headless. -/
def headlessOf (env : CaptchaEnv) : Bool :=
  env.headlessVar ≠ some "false" && env.headlessVar ≠ some "0"

/-- The interactive polling loop of src/pages/BasePage.js lines 252-267:
while timeElapsed < 120000, check whether the challenge cleared at the
current tick; on clearing break, otherwise wait 3000 ms and add 3000 to
timeElapsed.  Returns the final timeElapsed and the poll steps performed. -/
def captchaLoop (cleared : Nat → Bool) (timeElapsed : Nat) : Nat × List Step :=
  if timeElapsed < 120000 then
    if cleared timeElapsed then (timeElapsed, [])
    else
      let r := captchaLoop cleared (timeElapsed + 3000)
      (r.1, Step.poll :: r.2)
  else (timeElapsed, [])
termination_by 120000 - timeElapsed
decreasing_by omega

/-- The re-navigation tail of handlePossibleCaptcha (src/pages/BasePage.js
lines 311-327): recompute the location predicates and navigate back to the
return path when the disjunction of the three mismatch conditions holds. -/
def captchaRenav (env : CaptchaEnv) (returnPath : String) (useMainSite : Bool)
    (acc : List Step) : HandlerResult :=
  let onMainSite := jsIncludes env.currentUrl "www.funda.nl"
  let authSitePath := jsIncludes returnPath "account/"
  if (onMainSite && authSitePath && !useMainSite) ||
      (!onMainSite && !authSitePath && useMainSite) ||
      (!jsIncludes env.currentUrl returnPath) then
    { steps := acc ++ [Step.navigate returnPath, Step.waitMs 1000], err := none }
  else { steps := acc, err := none }

/-- The image-selection branch of handlePossibleCaptcha (src/pages/BasePage.js
lines 282-309): when the image-selection marker is visible, race the
disappearance of the challenge against a navigation for up to 2 minutes; on
resolution wait 2000 ms and continue, on timeout raise the image-timeout
error. -/
def captchaImagePhase (env : CaptchaEnv) (returnPath : String)
    (useMainSite : Bool) (acc : List Step) : HandlerResult :=
  if env.imageSelectVisible then
    if env.imageCleared then
      captchaRenav env returnPath useMainSite
        (acc ++ [Step.raceWait, Step.waitMs 2000])
    else
      { steps := acc ++ [Step.raceWait],
        err := some "Image CAPTCHA solving timeout exceeded. Test failed." }
  else captchaRenav env returnPath useMainSite acc

/-- Embedding of handlePossibleCaptcha (src/pages/BasePage.js lines 200-328):
reload on the access-denied page; on the checkbox-style challenge marker, in
non-interactive mode raise the fatal error at once, in interactive mode run
the polling loop and raise the wrapped timeout error when the loop exhausts
its 2-minute ceiling; then the image-selection branch and the re-navigation
tail. -/
def handlePossibleCaptcha (env : CaptchaEnv) (returnPath : String)
    (useMainSite : Bool) : HandlerResult :=
  let s0 : List Step :=
    if env.accessDeniedVisible then [Step.reload, Step.waitMs 2000] else []
  if env.captchaPageVisible then
    if headlessOf env then
      { steps := s0,
        err := some "CAPTCHA detected in headless mode. Test cannot proceed automatically." }
    else
      let r := captchaLoop env.cleared 0
      if 120000 ≤ r.1 then
        { steps := s0 ++ r.2,
          err := some "Failed to handle CAPTCHA: CAPTCHA solving timeout exceeded. Test failed." }
      else
        captchaImagePhase env returnPath useMainSite
          (s0 ++ r.2 ++ [Step.waitMs 2000])
  else captchaImagePhase env returnPath useMainSite s0

/-- Actions of ensureLoggedIn, in the order the source can perform them:
the initial login-state check, the state-file access/read/parse, applying the
stored cookies, the navigation to the main site, the post-cookie login
recheck, the credential lookup, and the manual login drive. -/
inductive Action where
  | checkLogin : Action
  | readStateFile : Action
  | applyCookies : Action
  | gotoMain : Action
  | recheckLogin : Action
  | getCreds : Action
  | manualLogin : Action
  deriving DecidableEq

/-- The environment ensureLoggedIn runs against.  The two login-state checks
are plain booleans because isLoggedIn never raises (its outermost catch is
verified separately); every other component is the outcome of a fallible
operation.  stateFile bundles fs.access, fs.readFile and JSON.parse: an error
in any of them is one error of the enclosing try. -/
structure EnsureEnv where
  firstCheck : Bool
  stateFile : Except Unit JsVal
  addCookies : Except Unit Unit
  gotoMain : Except Unit Unit
  secondCheck : Bool
  credentials : Except Unit Unit
  loginCall : Except Unit Bool

/-- The truthiness gate of src/utils/ensureLoggedIn.js line 40: the JS
condition state && state.cookies && state.cookies.length > 0 used as an if
condition (the member accesses are short-circuit-guarded by the truthiness of
the previous operand). -/
def cookiesOk (state : JsVal) : Bool :=
  truthy state && truthy (getField state "cookies") &&
    jsGtZero (jsLength (getField state "cookies"))

/-- The manual-login tail of ensureLoggedIn (src/utils/ensureLoggedIn.js
lines 64-81): look up credentials and drive the login form inside a try whose
catch returns false; a boolean login outcome is returned as is. -/
def manualLoginPhase (env : EnsureEnv) (t : List Action) : Bool × List Action :=
  match env.credentials with
  | Except.error _ => (false, t ++ [Action.getCreds])
  | Except.ok _ =>
    match env.loginCall with
    | Except.error _ => (false, t ++ [Action.getCreds, Action.manualLogin])
    | Except.ok r => (r, t ++ [Action.getCreds, Action.manualLogin])

/-- Embedding of ensureLoggedIn (src/utils/ensureLoggedIn.js lines 13-82):
check the login state and return true at once when it reports authenticated;
otherwise try the state file, and when its cookies gate passes apply the
cookies, navigate, and recheck, returning true on success; every error of
that try falls through, like a failed gate or a failed recheck, to the
manual-login tail.  Returns the boolean result and the performed actions. -/
def ensureLoggedIn (env : EnsureEnv) : Bool × List Action :=
  let t1 := [Action.checkLogin]
  if env.firstCheck then (true, t1)
  else
    let t2 := t1 ++ [Action.readStateFile]
    match env.stateFile with
    | Except.error _ => manualLoginPhase env t2
    | Except.ok state =>
      if cookiesOk state then
        match env.addCookies with
        | Except.error _ => manualLoginPhase env (t2 ++ [Action.applyCookies])
        | Except.ok _ =>
          match env.gotoMain with
          | Except.error _ =>
            manualLoginPhase env (t2 ++ [Action.applyCookies, Action.gotoMain])
          | Except.ok _ =>
            let t3 := t2 ++ [Action.applyCookies, Action.gotoMain, Action.recheckLogin]
            if env.secondCheck then (true, t3)
            else manualLoginPhase env t3
      else manualLoginPhase env t2

theorem filter_length_pos_iff {α : Type} (p : α → Bool) (l : List α) :
    0 < (l.filter p).length ↔ ∃ a ∈ l, p a = true := by
  induction l with
  | nil => simp
  | cons x xs ih =>
    simp only [List.filter_cons]
    by_cases hx : p x = true
    · rw [if_pos hx]
      exact iff_of_true (by simp) ⟨x, List.mem_cons_self x xs, hx⟩
    · rw [if_neg hx, ih]
      constructor
      · rintro ⟨a, ha, hpa⟩
        exact ⟨a, List.mem_cons_of_mem x ha, hpa⟩
      · rintro ⟨a, ha, hpa⟩
        rcases List.mem_cons.mp ha with h | h
        · subst h; exact absurd hpa hx
        · exact ⟨a, h, hpa⟩

/-- C1: the session-validity check isStateFileValid returns true on a snapshot
whose cookies array is non-empty and false on an empty cookies array, a
missing file, or a non-JSON file; but on content that parses to an object with
no cookies member at all, the code returns the JS value undefined, not the
boolean false its own doc comment and the spec promise (the claim fails on
the missing-cookies case; the divergent value is exhibited). -/
theorem isStateFileValid_missing_cookies_divergence :
    isStateFileValid (some (some (JsVal.obj [("cookies",
        JsVal.arr [JsVal.obj [("name", JsVal.str "a"), ("value", JsVal.str "b")]])])))
      = JsVal.bool true ∧
    isStateFileValid (some (some (JsVal.obj [("cookies", JsVal.arr [])])))
      = JsVal.bool false ∧
    isStateFileValid none = JsVal.bool false ∧
    isStateFileValid (some none) = JsVal.bool false ∧
    isStateFileValid (some (some (JsVal.obj [("other", JsVal.num 1)])))
      = JsVal.undef ∧
    JsVal.undef ≠ JsVal.bool false := by
  refine ⟨rfl, rfl, rfl, rfl, rfl, ?_⟩
  intro h
  exact JsVal.noConfusion h

/-- C2: the request-log query wasUrlPatternIntercepted returns true exactly
when some recorded URL contains the queried string as a case-sensitive
literal contiguous substring of its characters (no globbing, no
normalisation). -/
theorem wasUrlPatternIntercepted_iff_substring (s : NetworkMockPage)
    (pat : String) :
    wasUrlPatternIntercepted s pat = true ↔
      ∃ url ∈ s.interceptedUrls, ∃ p t, url.data = p ++ pat.data ++ t := by
  simp only [wasUrlPatternIntercepted, decide_eq_true_eq]
  rw [filter_length_pos_iff]
  constructor
  · rintro ⟨u, hu, hinc⟩
    exact ⟨u, hu, (charsHasSub_iff pat.data u.data).1 hinc⟩
  · rintro ⟨u, hu, p, t, ht⟩
    exact ⟨u, hu, (charsHasSub_iff pat.data u.data).2 ⟨p, t, ht⟩⟩

theorem startRequestMonitoring_urls (s : NetworkMockPage) :
    (startRequestMonitoring s).interceptedUrls = s.interceptedUrls := by
  by_cases h : s.isMonitoringRequests <;> simp [startRequestMonitoring, h]

theorem setupMockResponse_urls (s : NetworkMockPage) (pat : String) :
    (setupMockResponse s pat).interceptedUrls = s.interceptedUrls := by
  simp [setupMockResponse, startRequestMonitoring_urls s]

/-- C9: every state-changing entry point of the network-mock harness either
appends the observed URL at the end of the intercepted-URL log (the
catch-all handler, with no deduplication) or leaves the log unchanged
(installing monitoring, installing a mock, a mock handler firing); over any
event sequence the log grows by exactly the monitored URLs in arrival order,
so no operation removes or reorders existing entries. -/
theorem interceptedUrls_append_only :
    (∀ s url, (monitorHandler s url).interceptedUrls = s.interceptedUrls ++ [url]) ∧
    (∀ s, (startRequestMonitoring s).interceptedUrls = s.interceptedUrls) ∧
    (∀ s pat, (setupMockResponse s pat).interceptedUrls = s.interceptedUrls) ∧
    (∀ s url, (mockHandler s url).interceptedUrls = s.interceptedUrls) ∧
    (∀ s ops, (runOps s ops).interceptedUrls = s.interceptedUrls ++ monitoredUrls ops) := by
  refine ⟨fun s url => rfl, startRequestMonitoring_urls, setupMockResponse_urls,
    fun s url => rfl, ?_⟩
  intro s ops
  induction ops generalizing s with
  | nil => simp [runOps, monitoredUrls]
  | cons op rest ih =>
    cases op with
    | monitor url =>
      simp [runOps, applyOp, monitoredUrls, List.filterMap_cons, ih, monitorHandler]
    | startMon =>
      simp [runOps, applyOp, monitoredUrls, List.filterMap_cons, ih,
        startRequestMonitoring_urls]
    | setupMock pat =>
      simp [runOps, applyOp, monitoredUrls, List.filterMap_cons, ih,
        setupMockResponse_urls]
    | mockFire url =>
      simp [runOps, applyOp, monitoredUrls, List.filterMap_cons, ih, mockHandler]

/-- C10: startRequestMonitoring is idempotent: once the monitoring flag is
set, a further call is the identity on the state (no extra route handler, log
and flag untouched); the first call sets the flag; and setupMockResponse,
though it calls startRequestMonitoring internally, never adds a second
catch-all route. -/
theorem startRequestMonitoring_idempotent :
    (∀ s, s.isMonitoringRequests = true → startRequestMonitoring s = s) ∧
    (∀ s, startRequestMonitoring (startRequestMonitoring s) = startRequestMonitoring s) ∧
    (∀ s, (startRequestMonitoring s).isMonitoringRequests = true) ∧
    (∀ s pat, ((setupMockResponse s pat).routes.count RouteKind.catchAll)
        = ((startRequestMonitoring s).routes.count RouteKind.catchAll)) ∧
    (∀ s pat, s.isMonitoringRequests = true →
        (setupMockResponse s pat).routes = s.routes ++ [RouteKind.pattern pat]) := by
  have hid : ∀ s : NetworkMockPage, s.isMonitoringRequests = true →
      startRequestMonitoring s = s := by
    intro s h
    simp [startRequestMonitoring, h]
  have hflag : ∀ s : NetworkMockPage,
      (startRequestMonitoring s).isMonitoringRequests = true := by
    intro s
    by_cases h : s.isMonitoringRequests <;> simp [startRequestMonitoring, h]
  refine ⟨hid, fun s => hid _ (hflag s), hflag, ?_, ?_⟩
  · intro s pat
    simp only [setupMockResponse, List.count_append]
    have hbeq : (RouteKind.pattern pat == RouteKind.catchAll) = false := rfl
    simp [List.count_cons, List.count_nil, hbeq]
  · intro s pat h
    simp [setupMockResponse, hid s h]

/-- Witness for C10 at a state whose monitoring flag is already set. -/
theorem startRequestMonitoring_idempotent_witness :
    startRequestMonitoring
        { interceptedRequests := [], interceptedUrls := ["u"],
          isMonitoringRequests := true, routes := [RouteKind.catchAll] } =
      { interceptedRequests := [], interceptedUrls := ["u"],
        isMonitoringRequests := true, routes := [RouteKind.catchAll] } ∧
    (setupMockResponse
        { interceptedRequests := [], interceptedUrls := ["u"],
          isMonitoringRequests := true, routes := [RouteKind.catchAll] } "p").routes =
      [RouteKind.catchAll] ++ [RouteKind.pattern "p"] :=
  ⟨startRequestMonitoring_idempotent.1 _ rfl,
   startRequestMonitoring_idempotent.2.2.2.2 _ "p" rfl⟩

/-- C6: a fixture lookup for a key whose member access yields undefined
raises the not-found error naming the missing key (getTestData for a scenario
key; getCredentials both when the users table is absent and when the
user-type key is absent in a present users table), and in particular never
returns a value silently. -/
theorem fixture_missing_key_fatal :
    (∀ (file : FileOutcome) (k : String),
        getMember (loadTestData file) k = Except.ok JsVal.undef →
        getTestData file k =
          Except.error ("Test data for type \"" ++ k ++ "\" not found in data file")) ∧
    (∀ (file : FileOutcome) (k : String),
        getMember (loadTestData file) "users" = Except.ok JsVal.undef →
        getCredentials file k =
          Except.error ("Credentials for user type \"" ++ k ++ "\" not found in credentials file")) ∧
    (∀ (file : FileOutcome) (k : String) (users : JsVal),
        getMember (loadTestData file) "users" = Except.ok users →
        truthy users = true →
        getMember users k = Except.ok JsVal.undef →
        getCredentials file k =
          Except.error ("Credentials for user type \"" ++ k ++ "\" not found in credentials file")) := by
  refine ⟨?_, ?_, ?_⟩
  · intro file k h
    simp [getTestData, h, truthy]
  · intro file k h
    simp [getCredentials, h, truthy]
  · intro file k users hu htr hk
    simp [getCredentials, hu, htr, hk, truthy]

/-- Witness for C6 at a fixture file holding an empty users table and one
holding no users table. -/
theorem fixture_missing_key_fatal_witness :
    getTestData (some (some (JsVal.obj [("users", JsVal.obj [])]))) "search" =
      Except.error ("Test data for type \"" ++ "search" ++ "\" not found in data file") ∧
    getCredentials (some (some (JsVal.obj []))) "testUser" =
      Except.error ("Credentials for user type \"" ++ "testUser" ++ "\" not found in credentials file") ∧
    getCredentials (some (some (JsVal.obj [("users", JsVal.obj [])]))) "testUser" =
      Except.error ("Credentials for user type \"" ++ "testUser" ++ "\" not found in credentials file") :=
  ⟨fixture_missing_key_fatal.1 _ "search" rfl,
   fixture_missing_key_fatal.2.1 _ "testUser" rfl,
   fixture_missing_key_fatal.2.2 _ "testUser" (JsVal.obj []) rfl rfl rfl⟩

/-- C5 counterexample: an environment in which an internal element lookup
(the Account text indicator) raises an error, yet isLoggedIn returns true,
because the error is swallowed as element-not-visible and the later
account-menu check still finds the logout link.  This refutes the claim that
any internal error makes the result false. -/
theorem isLoggedIn_error_not_false_cex :
    (let env : LoginEnv :=
      { url := Except.ok "x", initialWait := Except.ok (),
        accountText := Except.error (), menuVisible := Except.ok true,
        menuClick := Except.ok (), menuWait := Except.ok (),
        logoutVisible := Except.ok true, userNameVisible := Except.ok false,
        passwordVisible := Except.ok false, loginBtnVisible := Except.ok false };
     env.accountText = Except.error () ∧ isLoggedIn env = Except.ok true) :=
  ⟨rfl, rfl⟩

/-- C5 (amended): isLoggedIn always yields a boolean and never raises: an
error escaping to the outermost catch (the url read or the initial wait)
yields false, and each internal element-lookup error is swallowed on the spot
and indistinguishable from that element not being visible, so a later
successful check may still report logged in. -/
theorem isLoggedIn_never_throws :
    (∀ env : LoginEnv, ∃ b : Bool, isLoggedIn env = Except.ok b) ∧
    (∀ env : LoginEnv, env.url = Except.error () → isLoggedIn env = Except.ok false) ∧
    (∀ env : LoginEnv, env.initialWait = Except.error () →
        isLoggedIn env = Except.ok false) ∧
    (∀ env : LoginEnv, isLoggedIn { env with accountText := Except.error () } =
        isLoggedIn { env with accountText := Except.ok false }) ∧
    (∀ env : LoginEnv, isLoggedIn { env with menuVisible := Except.error () } =
        isLoggedIn { env with menuVisible := Except.ok false }) ∧
    (∀ env : LoginEnv, isLoggedIn { env with logoutVisible := Except.error () } =
        isLoggedIn { env with logoutVisible := Except.ok false }) ∧
    (∀ env : LoginEnv, isLoggedIn { env with userNameVisible := Except.error () } =
        isLoggedIn { env with userNameVisible := Except.ok false }) ∧
    (∀ env : LoginEnv, isLoggedIn { env with passwordVisible := Except.error () } =
        isLoggedIn { env with passwordVisible := Except.ok false }) ∧
    (∀ env : LoginEnv, isLoggedIn { env with loginBtnVisible := Except.error () } =
        isLoggedIn { env with loginBtnVisible := Except.ok false }) := by
  refine ⟨?_, ?_, ?_, ?_, ?_, ?_, ?_, ?_, ?_⟩
  · intro env
    unfold isLoggedIn
    cases isLoggedInBody env with
    | error e => exact ⟨false, rfl⟩
    | ok b => exact ⟨b, rfl⟩
  · intro env h
    simp [isLoggedIn, isLoggedInBody, h]
  · intro env h
    cases hu : env.url with
    | error e => simp [isLoggedIn, isLoggedInBody, hu]
    | ok u => simp [isLoggedIn, isLoggedInBody, hu, h]
  · intro env
    simp [isLoggedIn, isLoggedInBody, lookupSwallow]
  · intro env
    simp [isLoggedIn, isLoggedInBody, lookupSwallow]
  · intro env
    simp [isLoggedIn, isLoggedInBody, lookupSwallow]
  · intro env
    simp [isLoggedIn, isLoggedInBody, lookupSwallow]
  · intro env
    simp [isLoggedIn, isLoggedInBody, lookupSwallow]
  · intro env
    simp [isLoggedIn, isLoggedInBody, lookupSwallow]

/-- Witness for C5 (amended) at environments with a failing url read, a
failing initial wait, and a failing Account lookup. -/
theorem isLoggedIn_never_throws_witness :
    isLoggedIn
        { url := Except.error (), initialWait := Except.ok (),
          accountText := Except.ok false, menuVisible := Except.ok false,
          menuClick := Except.ok (), menuWait := Except.ok (),
          logoutVisible := Except.ok false, userNameVisible := Except.ok false,
          passwordVisible := Except.ok false, loginBtnVisible := Except.ok false } =
      Except.ok false ∧
    isLoggedIn
        { url := Except.ok "x", initialWait := Except.error (),
          accountText := Except.ok false, menuVisible := Except.ok false,
          menuClick := Except.ok (), menuWait := Except.ok (),
          logoutVisible := Except.ok false, userNameVisible := Except.ok false,
          passwordVisible := Except.ok false, loginBtnVisible := Except.ok false } =
      Except.ok false :=
  ⟨isLoggedIn_never_throws.2.1 _ rfl, isLoggedIn_never_throws.2.2.1 _ rfl⟩

/-- C3 counterexample: a non-interactive (headless) environment in which only
the image-selection gate is detected.  The handler does not raise an error at
detection; it enters the two-minute race wait (the raceWait step) and, the
challenge clearing, completes without any error.  This refutes the claim that
in headless mode either challenge type fails fast at first detection. -/
theorem handlePossibleCaptcha_headless_image_cex :
    (let env : CaptchaEnv :=
      { headlessVar := none, accessDeniedVisible := false,
        captchaPageVisible := false, cleared := fun _ => false,
        imageSelectVisible := true, imageCleared := true, currentUrl := "x" };
     headlessOf env = true ∧ env.imageSelectVisible = true ∧
       (handlePossibleCaptcha env "account/login" false).err = none ∧
       Step.raceWait ∈ (handlePossibleCaptcha env "account/login" false).steps) := by
  refine ⟨rfl, rfl, rfl, ?_⟩
  decide

/-- C3 (amended): in non-interactive (headless) mode, detection of the
checkbox-style gate makes handlePossibleCaptcha raise its fatal error at the
first detection, with no polling tick and no race wait performed; the
image-selection gate, by contrast, is handled by the waiting phase in every
mode. -/
theorem handlePossibleCaptcha_headless_failfast (env : CaptchaEnv)
    (returnPath : String) (useMainSite : Bool)
    (hHead : headlessOf env = true) (hCap : env.captchaPageVisible = true) :
    (handlePossibleCaptcha env returnPath useMainSite).err =
      some "CAPTCHA detected in headless mode. Test cannot proceed automatically." ∧
    Step.poll ∉ (handlePossibleCaptcha env returnPath useMainSite).steps ∧
    Step.raceWait ∉ (handlePossibleCaptcha env returnPath useMainSite).steps := by
  by_cases hA : env.accessDeniedVisible <;>
    simp [handlePossibleCaptcha, hCap, hHead, hA]

/-- Witness for C3 (amended) at a headless environment showing the
checkbox-style gate. -/
theorem handlePossibleCaptcha_headless_failfast_witness :
    (handlePossibleCaptcha
        { headlessVar := none, accessDeniedVisible := false,
          captchaPageVisible := true, cleared := fun _ => false,
          imageSelectVisible := false, imageCleared := false, currentUrl := "x" }
        "account/login" false).err =
      some "CAPTCHA detected in headless mode. Test cannot proceed automatically." :=
  (handlePossibleCaptcha_headless_failfast
    { headlessVar := none, accessDeniedVisible := false,
      captchaPageVisible := true, cleared := fun _ => false,
      imageSelectVisible := false, imageCleared := false, currentUrl := "x" }
    "account/login" false rfl rfl).1

theorem captchaLoop_unfold (cl : Nat → Bool) (e : Nat) (he : e < 120000)
    (hcl : cl e = false) :
    captchaLoop cl e =
      ((captchaLoop cl (e + 3000)).1, Step.poll :: (captchaLoop cl (e + 3000)).2) := by
  rw [captchaLoop]
  simp [he, hcl]

theorem captchaLoop_ceiling (cl : Nat → Bool) :
    ∀ (k e : Nat), e + 3000 * k = 120000 → (captchaLoop cl e).1 ≤ 120000 := by
  intro k
  induction k with
  | zero =>
    intro e he
    rw [captchaLoop]
    simp only [Nat.mul_zero, Nat.add_zero] at he
    simp [he]
  | succ n ih =>
    intro e he
    have hlt : e < 120000 := by omega
    rw [captchaLoop]
    simp only [hlt, if_true]
    by_cases hc : cl e = true
    · simp [hc]
      omega
    · rw [Bool.not_eq_true] at hc
      simp [hc]
      exact ih (e + 3000) (by omega)

theorem captchaLoop_never_cleared (cl : Nat → Bool) (h : ∀ t, cl t = false) :
    ∀ (k e : Nat), e + 3000 * k = 120000 →
      captchaLoop cl e = (120000, List.replicate k Step.poll) := by
  intro k
  induction k with
  | zero =>
    intro e he
    rw [captchaLoop]
    simp only [Nat.mul_zero, Nat.add_zero] at he
    simp [he]
  | succ n ih =>
    intro e he
    have hlt : e < 120000 := by omega
    rw [captchaLoop]
    simp [hlt, h e, ih (e + 3000) (by omega), List.replicate_succ]

/-- C4: the interactive waiting phase of the challenge handler terminates
within its fixed ceiling: each loop iteration on an uncleared tick performs
one poll step and advances the accumulated time by exactly the 3000 ms
interval; from the initial accumulated time of zero the loop never exceeds
120000 ms; and when the challenge never clears, the loop exhausts the full
2-minute ceiling in exactly 40 polls and the handler raises the wrapped
timeout error instead of continuing to poll. -/
theorem captcha_interactive_ceiling :
    (∀ (cl : Nat → Bool) (e : Nat), e < 120000 → cl e = false →
        captchaLoop cl e =
          ((captchaLoop cl (e + 3000)).1, Step.poll :: (captchaLoop cl (e + 3000)).2)) ∧
    (∀ cl : Nat → Bool, (captchaLoop cl 0).1 ≤ 120000) ∧
    (∀ cl : Nat → Bool, (∀ t, cl t = false) →
        captchaLoop cl 0 = (120000, List.replicate 40 Step.poll)) ∧
    (∀ (env : CaptchaEnv) (returnPath : String) (useMainSite : Bool),
        headlessOf env = false → env.captchaPageVisible = true →
        (∀ t, env.cleared t = false) →
        (handlePossibleCaptcha env returnPath useMainSite).err =
          some "Failed to handle CAPTCHA: CAPTCHA solving timeout exceeded. Test failed.") := by
  refine ⟨captchaLoop_unfold, ?_, ?_, ?_⟩
  · intro cl
    exact captchaLoop_ceiling cl 40 0 (by norm_num)
  · intro cl h
    exact captchaLoop_never_cleared cl h 40 0 (by norm_num)
  · intro env returnPath useMainSite hHead hCap hcl
    have hr := captchaLoop_never_cleared env.cleared hcl 40 0 (by norm_num)
    simp [handlePossibleCaptcha, hCap, hHead, hr]

/-- Witness for C4 at the never-clearing tick function and a concrete
interactive environment. -/
theorem captcha_interactive_ceiling_witness :
    captchaLoop (fun _ => false) 0 =
      ((captchaLoop (fun _ => false) 3000).1,
        Step.poll :: (captchaLoop (fun _ => false) 3000).2) ∧
    captchaLoop (fun _ => false) 0 = (120000, List.replicate 40 Step.poll) ∧
    (handlePossibleCaptcha
        { headlessVar := some "false", accessDeniedVisible := false,
          captchaPageVisible := true, cleared := fun _ => false,
          imageSelectVisible := false, imageCleared := false, currentUrl := "x" }
        "account/login" false).err =
      some "Failed to handle CAPTCHA: CAPTCHA solving timeout exceeded. Test failed." :=
  ⟨captcha_interactive_ceiling.1 (fun _ => false) 0 (by norm_num) rfl,
   captcha_interactive_ceiling.2.2.1 (fun _ => false) (fun t => rfl),
   captcha_interactive_ceiling.2.2.2 _ "account/login" false rfl rfl (fun t => rfl)⟩

theorem manualLoginPhase_snd (env : EnsureEnv) (t : List Action) :
    (manualLoginPhase env t).2 = t ++ [Action.getCreds] ∨
    (manualLoginPhase env t).2 = t ++ [Action.getCreds, Action.manualLogin] := by
  unfold manualLoginPhase
  cases env.credentials with
  | error e => exact Or.inl rfl
  | ok u =>
    cases env.loginCall with
    | error e => exact Or.inr rfl
    | ok r => exact Or.inr rfl

theorem mem_manualLoginPhase (env : EnsureEnv) (t : List Action) (a : Action)
    (h1 : a ≠ Action.getCreds) (h2 : a ≠ Action.manualLogin) :
    a ∈ (manualLoginPhase env t).2 ↔ a ∈ t := by
  rcases manualLoginPhase_snd env t with h | h <;> rw [h] <;> simp [h1, h2]

theorem getCreds_mem_manualLoginPhase (env : EnsureEnv) (t : List Action) :
    Action.getCreds ∈ (manualLoginPhase env t).2 := by
  rcases manualLoginPhase_snd env t with h | h <;> rw [h] <;> simp

theorem ensureLoggedIn_shapes (env : EnsureEnv) :
    ensureLoggedIn env = (true, [Action.checkLogin]) ∨
    ensureLoggedIn env = (true, [Action.checkLogin, Action.readStateFile,
      Action.applyCookies, Action.gotoMain, Action.recheckLogin]) ∨
    ∃ t, ensureLoggedIn env = manualLoginPhase env t := by
  unfold ensureLoggedIn
  by_cases hfc : env.firstCheck = true
  · simp [hfc]
  · rw [Bool.not_eq_true] at hfc
    simp only [hfc, Bool.false_eq_true, if_false]
    cases hsf : env.stateFile with
    | error e => exact Or.inr (Or.inr ⟨_, rfl⟩)
    | ok state =>
      by_cases hc : cookiesOk state = true
      · simp only [hc, if_true]
        cases hac : env.addCookies with
        | error e => exact Or.inr (Or.inr ⟨_, rfl⟩)
        | ok u =>
          cases hgm : env.gotoMain with
          | error e => exact Or.inr (Or.inr ⟨_, rfl⟩)
          | ok v =>
            by_cases hsc : env.secondCheck = true
            · simp only [hsc, if_true]
              exact Or.inr (Or.inl (by simp))
            · rw [Bool.not_eq_true] at hsc
              simp only [hsc, Bool.false_eq_true, if_false]
              exact Or.inr (Or.inr ⟨_, rfl⟩)
      · rw [Bool.not_eq_true] at hc
        simp only [hc, Bool.false_eq_true, if_false]
        exact Or.inr (Or.inr ⟨_, rfl⟩)

/-- C7: the login orchestration follows the specified order and
short-circuits: a positive initial check returns true with no state-file
read, cookie application, or manual login; the cookies are applied exactly
when the parsed state passes the cookies gate, and a recheck happens only
then; a successful recheck returns true without driving the login form; the
manual login is reached only when the initial check was negative; and on a
state whose cookies member is an array, the gate passes exactly for a
non-empty array. -/
theorem ensureLoggedIn_order_shortcircuit :
    (∀ env : EnsureEnv, env.firstCheck = true →
        ensureLoggedIn env = (true, [Action.checkLogin])) ∧
    (∀ (env : EnsureEnv) (state : JsVal), env.firstCheck = false →
        env.stateFile = Except.ok state →
        (Action.applyCookies ∈ (ensureLoggedIn env).2 ↔ cookiesOk state = true)) ∧
    (∀ (env : EnsureEnv) (state : JsVal), env.firstCheck = false →
        env.stateFile = Except.ok state →
        Action.recheckLogin ∈ (ensureLoggedIn env).2 → cookiesOk state = true) ∧
    (∀ (env : EnsureEnv) (state : JsVal), env.firstCheck = false →
        env.stateFile = Except.ok state → cookiesOk state = true →
        env.addCookies = Except.ok () → env.gotoMain = Except.ok () →
        env.secondCheck = true →
        ensureLoggedIn env = (true, [Action.checkLogin, Action.readStateFile,
          Action.applyCookies, Action.gotoMain, Action.recheckLogin])) ∧
    (∀ env : EnsureEnv, Action.manualLogin ∈ (ensureLoggedIn env).2 →
        env.firstCheck = false) ∧
    (∀ (env : EnsureEnv) (state : JsVal), env.firstCheck = false →
        env.stateFile = Except.ok state → cookiesOk state = true →
        env.addCookies = Except.ok () → env.gotoMain = Except.ok () →
        env.secondCheck = false → Action.getCreds ∈ (ensureLoggedIn env).2) ∧
    (∀ (state : JsVal) (elems : List JsVal),
        getField state "cookies" = JsVal.arr elems → truthy state = true →
        (cookiesOk state = true ↔ elems ≠ [])) := by
  refine ⟨?_, ?_, ?_, ?_, ?_, ?_, ?_⟩
  · intro env h
    simp [ensureLoggedIn, h]
  · intro env state h1 h2
    by_cases hc : cookiesOk state = true
    · simp only [hc, iff_true]
      cases hac : env.addCookies with
      | error e =>
        simp [ensureLoggedIn, h1, h2, hc, hac, mem_manualLoginPhase]
      | ok u =>
        cases hgm : env.gotoMain with
        | error e =>
          simp [ensureLoggedIn, h1, h2, hc, hac, hgm, mem_manualLoginPhase]
        | ok v =>
          by_cases hsc : env.secondCheck = true
          · simp [ensureLoggedIn, h1, h2, hc, hac, hgm, hsc]
          · rw [Bool.not_eq_true] at hsc
            simp [ensureLoggedIn, h1, h2, hc, hac, hgm, hsc, mem_manualLoginPhase]
    · rw [Bool.not_eq_true] at hc
      simp [ensureLoggedIn, h1, h2, hc, mem_manualLoginPhase]
  · intro env state h1 h2 hmem
    by_contra hc
    rw [Bool.not_eq_true] at hc
    simp [ensureLoggedIn, h1, h2, hc, mem_manualLoginPhase] at hmem
  · intro env state h1 h2 hc hac hgm hsc
    simp [ensureLoggedIn, h1, h2, hc, hac, hgm, hsc]
  · intro env hmem
    cases hfc : env.firstCheck with
    | false => rfl
    | true =>
      simp [ensureLoggedIn, hfc] at hmem
  · intro env state h1 h2 hc hac hgm hsc
    have hshape : (ensureLoggedIn env).2 =
        (manualLoginPhase env [Action.checkLogin, Action.readStateFile,
          Action.applyCookies, Action.gotoMain, Action.recheckLogin]).2 := by
      simp [ensureLoggedIn, h1, h2, hc, hac, hgm, hsc]
    rw [hshape]
    exact getCreds_mem_manualLoginPhase env _
  · intro state elems hcook htr
    simp only [cookiesOk, hcook, htr, Bool.true_and]
    simp [truthy, jsLength, jsGtZero, Int.natCast_pos, List.length_pos]

/-- Witness for C7 at a positive initial check, at a stored-cookie login that
succeeds on the recheck, and at a one-cookie state value. -/
theorem ensureLoggedIn_order_shortcircuit_witness :
    ensureLoggedIn
        { firstCheck := true, stateFile := Except.error (),
          addCookies := Except.error (), gotoMain := Except.error (),
          secondCheck := false, credentials := Except.error (),
          loginCall := Except.error () } = (true, [Action.checkLogin]) ∧
    ensureLoggedIn
        { firstCheck := false,
          stateFile := Except.ok (JsVal.obj [("cookies", JsVal.arr [JsVal.obj []])]),
          addCookies := Except.ok (), gotoMain := Except.ok (),
          secondCheck := true, credentials := Except.ok (),
          loginCall := Except.ok true } =
      (true, [Action.checkLogin, Action.readStateFile, Action.applyCookies,
        Action.gotoMain, Action.recheckLogin]) ∧
    (cookiesOk (JsVal.obj [("cookies", JsVal.arr [JsVal.obj []])]) = true ↔
      ([JsVal.obj []] : List JsVal) ≠ []) :=
  ⟨ensureLoggedIn_order_shortcircuit.1
      { firstCheck := true, stateFile := Except.error (),
        addCookies := Except.error (), gotoMain := Except.error (),
        secondCheck := false, credentials := Except.error (),
        loginCall := Except.error () } rfl,
   ensureLoggedIn_order_shortcircuit.2.2.2.1
      { firstCheck := false,
        stateFile := Except.ok (JsVal.obj [("cookies", JsVal.arr [JsVal.obj []])]),
        addCookies := Except.ok (), gotoMain := Except.ok (),
        secondCheck := true, credentials := Except.ok (),
        loginCall := Except.ok true }
      (JsVal.obj [("cookies", JsVal.arr [JsVal.obj []])]) rfl rfl rfl rfl rfl rfl,
   ensureLoggedIn_order_shortcircuit.2.2.2.2.2.2
      (JsVal.obj [("cookies", JsVal.arr [JsVal.obj []])]) [JsVal.obj []] rfl rfl⟩

/-- C8 counterexample: an environment whose state-file read raises an error
while the subsequent manual login succeeds.  The error is caught but the
result is true, refuting the claim that every caught error is converted into
the return value false. -/
theorem ensureLoggedIn_statefile_error_cex :
    (let env : EnsureEnv :=
      { firstCheck := false, stateFile := Except.error (),
        addCookies := Except.ok (), gotoMain := Except.ok (),
        secondCheck := false, credentials := Except.ok (),
        loginCall := Except.ok true };
     env.stateFile = Except.error () ∧ (ensureLoggedIn env).1 = true) :=
  ⟨rfl, rfl⟩

theorem manualLoginPhase_fst_creds_err (env : EnsureEnv) (t : List Action)
    (h : env.credentials = Except.error ()) :
    (manualLoginPhase env t).1 = false := by
  simp [manualLoginPhase, h]

theorem manualLoginPhase_fst_login_err (env : EnsureEnv) (t : List Action)
    (h : env.loginCall = Except.error ()) :
    (manualLoginPhase env t).1 = false := by
  unfold manualLoginPhase
  cases hcr : env.credentials with
  | error e => rfl
  | ok u => simp [h]

theorem manualLoginPhase_fst_login_false (env : EnsureEnv) (t : List Action)
    (h : env.loginCall = Except.ok false) :
    (manualLoginPhase env t).1 = false := by
  unfold manualLoginPhase
  cases hcr : env.credentials with
  | error e => rfl
  | ok u => simp [h]

/-- C8 (amended): ensureLoggedIn reports failure as the boolean false and
never raises to its caller: an error in credential lookup or in the manual
login, and a manual login returning false, each yield the result false
whenever the manual phase is reached; an error in state-file loading or in
cookie application is caught and causes fallback to the manual phase (whose
outcome then determines the result) instead of an exception; and with every
fallible component failing the function still returns the boolean false. -/
theorem ensureLoggedIn_failure_as_false :
    (∀ env : EnsureEnv, env.firstCheck = false → env.stateFile = Except.error () →
        env.credentials = Except.error () →
        ensureLoggedIn env =
          (false, [Action.checkLogin, Action.readStateFile, Action.getCreds])) ∧
    (∀ env : EnsureEnv, env.credentials = Except.error () →
        Action.getCreds ∈ (ensureLoggedIn env).2 → (ensureLoggedIn env).1 = false) ∧
    (∀ env : EnsureEnv, env.loginCall = Except.error () →
        Action.manualLogin ∈ (ensureLoggedIn env).2 → (ensureLoggedIn env).1 = false) ∧
    (∀ env : EnsureEnv, env.loginCall = Except.ok false →
        Action.manualLogin ∈ (ensureLoggedIn env).2 → (ensureLoggedIn env).1 = false) ∧
    (∀ (env : EnsureEnv) (state : JsVal), env.firstCheck = false →
        env.stateFile = Except.ok state → cookiesOk state = true →
        env.addCookies = Except.error () →
        Action.getCreds ∈ (ensureLoggedIn env).2) := by
  refine ⟨?_, ?_, ?_, ?_, ?_⟩
  · intro env h1 h2 h3
    simp [ensureLoggedIn, manualLoginPhase, h1, h2, h3]
  · intro env hcr hmem
    rcases ensureLoggedIn_shapes env with h | h | ⟨t, h⟩
    · rw [h] at hmem; simp at hmem
    · rw [h] at hmem; simp at hmem
    · rw [h]; exact manualLoginPhase_fst_creds_err env t hcr
  · intro env hlc hmem
    rcases ensureLoggedIn_shapes env with h | h | ⟨t, h⟩
    · rw [h] at hmem; simp at hmem
    · rw [h] at hmem; simp at hmem
    · rw [h]; exact manualLoginPhase_fst_login_err env t hlc
  · intro env hlc hmem
    rcases ensureLoggedIn_shapes env with h | h | ⟨t, h⟩
    · rw [h] at hmem; simp at hmem
    · rw [h] at hmem; simp at hmem
    · rw [h]; exact manualLoginPhase_fst_login_false env t hlc
  · intro env state h1 h2 hc hac
    have hshape : (ensureLoggedIn env).2 =
        (manualLoginPhase env [Action.checkLogin, Action.readStateFile,
          Action.applyCookies]).2 := by
      simp [ensureLoggedIn, h1, h2, hc, hac]
    rw [hshape]
    exact getCreds_mem_manualLoginPhase env _

/-- Witness for C8 (amended) at an environment in which every fallible
component errors. -/
theorem ensureLoggedIn_failure_as_false_witness :
    ensureLoggedIn
        { firstCheck := false, stateFile := Except.error (),
          addCookies := Except.error (), gotoMain := Except.error (),
          secondCheck := false, credentials := Except.error (),
          loginCall := Except.error () } =
      (false, [Action.checkLogin, Action.readStateFile, Action.getCreds]) :=
  ensureLoggedIn_failure_as_false.1
    { firstCheck := false, stateFile := Except.error (),
      addCookies := Except.error (), gotoMain := Except.error (),
      secondCheck := false, credentials := Except.error (),
      loginCall := Except.error () } rfl rfl rfl

end Sollit
